import Mathlib

/-!
Shallow embedding of SWDT.hpp (silvio3105/SWDT), a header-only STM32 watchdog
driver. Hardware register writes are modelled as an explicit trace of write
events; the driver state is the single field freq of the template base class
SWDT::SWDT<C>. All arithmetic in the source is unsigned 32-bit division and
holds values far below 2^32, where it agrees with Nat division, so machine
integers are modelled as Nat. A division whose divisor is zero is undefined
behaviour in C++; a computation containing one is modelled as Option.none.
-/

namespace SML

/-- Modelled from the spec: SML::limit of SML.hpp is an external collaborator,
not part of this repository, assumed to clamp a value into the range lo to hi
in place (the call site in setReloadValue discards any result, so the clamp
must act on the argument itself). -/
def limit (value lo hi : Nat) : Nat := max lo (min value hi)

end SML

namespace SWDT

/-- A single write to one of the memory-mapped IWDG registers: KR is the key
register, PR the prescaler register, RLR the reload register (SWDT.hpp lines
171, 181, 230, 251, 268). -/
inductive RegWrite where
  | KR : Nat → RegWrite
  | PR : Nat → RegWrite
  | RLR : Nat → RegWrite
deriving DecidableEq

/-- Driver state of the template base class SWDT::SWDT<C>: the stored input
frequency in Hz (field freq, line 129, field initialiser 1). -/
structure SWDTState where
  freq : Nat
deriving DecidableEq

namespace SWDT_IWDG

/-- Reload key for IWDG (line 201). -/
def reloadKey : Nat := 0xAAAA

/-- Access key for IWDG (line 202). -/
def accessKey : Nat := 0x5555

/-- Start key for IWDG (line 203). -/
def startKey : Nat := 0xCCCC

/-- Maximum reload value for IWDG (line 204). -/
def maxReloadValue : Nat := 4095

/-- IWDG input clock prescaler enum (lines 211 to 219). -/
inductive Prescaler_t where
  | Div4
  | Div8
  | Div16
  | Div32
  | Div64
  | Div128
  | Div256
deriving DecidableEq

/-- Numeric encoding of each prescaler enumerator (lines 212 to 218). -/
def Prescaler_t.toNat : Prescaler_t → Nat
  | Prescaler_t.Div4 => 0b000
  | Prescaler_t.Div8 => 0b001
  | Prescaler_t.Div16 => 0b010
  | Prescaler_t.Div32 => 0b011
  | Prescaler_t.Div64 => 0b100
  | Prescaler_t.Div128 => 0b101
  | Prescaler_t.Div256 => 0b110

/-- Init IWDG object: set IWDG input freq to 40000 (lines 156 to 160). -/
def init (s : SWDTState) : SWDTState := { s with freq := 40000 }

/-- Start IWDG: IWDG->KR = startKey (lines 169 to 172); the state is not
touched. -/
def start (s : SWDTState) : SWDTState × List RegWrite :=
  (s, [RegWrite.KR startKey])

/-- Reload IWDG counter: IWDG->KR = reloadKey (lines 179 to 182); the state
is not touched. -/
def feed (s : SWDTState) : SWDTState × List RegWrite :=
  (s, [RegWrite.KR reloadKey])

/-- Enable register write access: IWDG->KR = accessKey (lines 227 to 231). -/
def enableAccess : List RegWrite := [RegWrite.KR accessKey]

/-- Set IWDG input clock prescaler (lines 259 to 269): enableAccess, then
IWDG->PR = (uint8_t)prescaler. The busy wait on IWDG_SR_PVU is commented out
in the source and therefore absent here. -/
def setPrescaler (prescaler : Prescaler_t) : List RegWrite :=
  enableAccess ++ [RegWrite.PR (Prescaler_t.toNat prescaler)]

/-- Set IWDG reload value (lines 239 to 252): clamp the value via SML::limit
into the range 1 to maxReloadValue, then enableAccess, then IWDG->RLR = value.
The busy wait on IWDG_SR_RVU is commented out in the source and therefore
absent here. -/
def setReloadValue (value : Nat) : List RegWrite :=
  enableAccess ++ [RegWrite.RLR (SML.limit value 1 maxReloadValue)]

/-- The argument passed to setReloadValue by setTimeout (line 196):
timeout / (1000 / (freq / 256)). A none result marks a division by zero,
which is undefined behaviour in C++. -/
def setTimeoutReload (freq timeout : Nat) : Option Nat :=
  if freq / 256 = 0 then none
  else if 1000 / (freq / 256) = 0 then none
  else some (timeout / (1000 / (freq / 256)))

/-- Register writes performed by setTimeout (lines 190 to 197): setPrescaler
with Div256, then setReloadValue of the computed reload argument; none when
the reload computation divides by zero. -/
def setTimeoutTrace (freq timeout : Nat) : Option (List RegWrite) :=
  match setTimeoutReload freq timeout with
  | none => none
  | some r => some (setPrescaler Prescaler_t.Div256 ++ setReloadValue r)

/-- Set the timeout (lines 190 to 197): the state is not touched; the
register writes are those of setTimeoutTrace at the stored frequency. -/
def setTimeout (s : SWDTState) (timeout : Nat) :
    SWDTState × Option (List RegWrite) :=
  (s, setTimeoutTrace s.freq timeout)

/-- The object constructor SWDT_IWDG(uint32_t timeout) via the base
constructor SWDT(uint32_t timeout) (lines 69 to 73 and 141 to 144): field
initialiser freq = 1, then init(), then setTimeout(timeout). -/
def mkIWDG (timeout : Nat) : SWDTState × Option (List RegWrite) :=
  setTimeout (init { freq := 1 }) timeout

/-- The pre-clamp reload algorithm as the spec states it (section 4.2 steps
2 to 4): effectiveTickFrequencyHz = freq / 256, ticksPerMillisecond =
effectiveTickFrequencyHz / 1000, reloadValue = timeout / ticksPerMillisecond,
with none marking a division by zero. Written from the words of the spec, to
be compared with setTimeoutReload, which follows the source. -/
def specPreClampReload (freq timeout : Nat) : Option Nat :=
  let effectiveTickFrequencyHz := freq / 256
  let ticksPerMillisecond := effectiveTickFrequencyHz / 1000
  if ticksPerMillisecond = 0 then none
  else some (timeout / ticksPerMillisecond)

/-- The quantity ticksPerMillisecond of the algorithm stated by the spec. -/
def specTicksPerMs (freq : Nat) : Nat := freq / 256 / 1000

/-- The amended description of the pre-clamp reload computation:
effectiveTickFrequencyHz = freq / 256, millisecondsPerTick =
1000 / effectiveTickFrequencyHz, reloadValue = timeout / millisecondsPerTick,
with none marking a division by zero. Written from the words of the amended
claim, to be compared with setTimeoutReload. -/
def amendedPreClampReload (freq timeout : Nat) : Option Nat :=
  let effectiveTickFrequencyHz := freq / 256
  if effectiveTickFrequencyHz = 0 then none
  else
    let millisecondsPerTick := 1000 / effectiveTickFrequencyHz
    if millisecondsPerTick = 0 then none
    else some (timeout / millisecondsPerTick)

end SWDT_IWDG

namespace SWDT_WWDG

/-- WWDG init (lines 286 to 289): empty body, no state change, no register
write. -/
def init (s : SWDTState) : SWDTState × List RegWrite := (s, [])

/-- WWDG start (lines 291 to 294): empty body, no state change, no register
write. -/
def start (s : SWDTState) : SWDTState × List RegWrite := (s, [])

/-- WWDG feed (lines 296 to 299): empty body, no state change, no register
write. -/
def feed (s : SWDTState) : SWDTState × List RegWrite := (s, [])

/-- WWDG setTimeout (lines 301 to 304): empty body, no state change, no
register write. -/
def setTimeout (s : SWDTState) (timeout : Nat) : SWDTState × List RegWrite :=
  (s, [])

end SWDT_WWDG

/-- The public operations of the IWDG driver after construction (base class
lines 90 to 125). -/
inductive Op where
  | start
  | feed
  | setTimeout : Nat → Op
  | setInputFreq : Nat → Op
deriving DecidableEq

/-- Effect of one public IWDG operation on the driver state, together with
its register writes; setInputFreq (lines 122 to 125) only assigns freq. -/
def applyOp (s : SWDTState) : Op → SWDTState × Option (List RegWrite)
  | Op.start => ((SWDT_IWDG.start s).1, some (SWDT_IWDG.start s).2)
  | Op.feed => ((SWDT_IWDG.feed s).1, some (SWDT_IWDG.feed s).2)
  | Op.setTimeout t => SWDT_IWDG.setTimeout s t
  | Op.setInputFreq v => ({ s with freq := v }, some [])

/-- Run a sequence of public operations, tracking the driver state. -/
def runOps (s : SWDTState) : List Op → SWDTState
  | [] => s
  | op :: rest => runOps (applyOp s op).1 rest

/-- True for every operation other than setInputFreq. -/
def notSetInputFreq : Op → Bool
  | Op.setInputFreq _ => false
  | _ => true

/-- The values of the PR register writes of a trace, in order. -/
def prWrites (tr : List RegWrite) : List Nat :=
  tr.filterMap fun w =>
    match w with
    | RegWrite.PR v => some v
    | _ => none

/-- A KR write uses one of the three fixed keys; PR and RLR writes are not
key writes. -/
def allowedKey : RegWrite → Bool
  | RegWrite.KR k =>
      k == SWDT_IWDG.accessKey || k == SWDT_IWDG.reloadKey ||
        k == SWDT_IWDG.startKey
  | _ => true

/-- Helper: a defined setTimeout trace is exactly the four writes unlock key,
prescaler encoding 6, unlock key, clamped reload value. -/
theorem setTimeoutTrace_shape (freq timeout : Nat) (tr : List RegWrite)
    (h : SWDT_IWDG.setTimeoutTrace freq timeout = some tr) :
    ∃ r, SWDT_IWDG.setTimeoutReload freq timeout = some r ∧
      tr = [RegWrite.KR SWDT_IWDG.accessKey, RegWrite.PR 6,
            RegWrite.KR SWDT_IWDG.accessKey,
            RegWrite.RLR (SML.limit r 1 SWDT_IWDG.maxReloadValue)] := by
  cases hr : SWDT_IWDG.setTimeoutReload freq timeout with
  | none => simp [SWDT_IWDG.setTimeoutTrace, hr] at h
  | some r =>
      simp only [SWDT_IWDG.setTimeoutTrace, hr, Option.some.injEq] at h
      exact ⟨r, rfl, h.symm⟩

/-- Claim C1 (corrected), counterexample: at the default input frequency
40000 Hz with timeout 1000 ms, the pre-clamp reload value computed by the
source, timeout / (1000 / (freq / 256)), differs from the algorithm stated by
the spec, timeout / ((freq / 256) / 1000): the source yields some 166 while
the spec algorithm divides by zero. -/
theorem c1_counterexample :
    SWDT_IWDG.setTimeoutReload 40000 1000 ≠
      SWDT_IWDG.specPreClampReload 40000 1000 := by
  decide

/-- Claim C1 (amended): for every timeout and input frequency, setTimeout
computes the pre-clamp reload value as timeout / (1000 / (freq / 256)), that
is millisecondsPerTick = 1000 / effectiveTickFrequencyHz and reloadValue =
timeout / millisecondsPerTick; at 40000 Hz this is defined (the divisor is 6)
and yields 166 for timeout 1000, whereas the ticksPerMillisecond of the
algorithm stated by the spec is 0 at 40000 Hz, so the stated algorithm would
divide by zero there. -/
theorem c1_code_formula :
    (∀ freq timeout,
      SWDT_IWDG.setTimeoutReload freq timeout =
        SWDT_IWDG.amendedPreClampReload freq timeout) ∧
    SWDT_IWDG.setTimeoutReload 40000 1000 = some 166 ∧
    SWDT_IWDG.specTicksPerMs 40000 = 0 ∧
    SWDT_IWDG.specPreClampReload 40000 1000 = none :=
  ⟨fun _ _ => rfl, by decide, by decide, by decide⟩

/-- Claim C2: for every input on which the setTimeout computation is defined,
the value written to the reload register RLR is the raw reload value clamped
into the range 1 to 4095: it lies in that range, a raw value above 4095 is
written as 4095, and a raw value below 1 is written as 1; the trace is always
produced, with no error signalled. -/
theorem c2_reload_clamped (freq timeout raw : Nat) (tr : List RegWrite)
    (hr : SWDT_IWDG.setTimeoutReload freq timeout = some raw)
    (h : SWDT_IWDG.setTimeoutTrace freq timeout = some tr) :
    RegWrite.RLR (SML.limit raw 1 SWDT_IWDG.maxReloadValue) ∈ tr ∧
    1 ≤ SML.limit raw 1 SWDT_IWDG.maxReloadValue ∧
    SML.limit raw 1 SWDT_IWDG.maxReloadValue ≤ 4095 ∧
    (4095 < raw → SML.limit raw 1 SWDT_IWDG.maxReloadValue = 4095) ∧
    (raw = 0 → SML.limit raw 1 SWDT_IWDG.maxReloadValue = 1) := by
  obtain ⟨r, hr2, htr⟩ := setTimeoutTrace_shape freq timeout tr h
  rw [hr] at hr2
  obtain rfl : raw = r := Option.some.inj hr2
  have hl : SML.limit raw 1 SWDT_IWDG.maxReloadValue =
      max 1 (min raw 4095) := rfl
  refine ⟨by rw [htr]; simp, ?_, ?_, ?_, ?_⟩ <;> rw [hl] <;> omega

/-- Witness for claim C2 at freq 40000 and timeout 1000: the raw reload value
is 166 and the write RLR 166 is in the trace. -/
theorem c2_witness :
    RegWrite.RLR (SML.limit 166 1 SWDT_IWDG.maxReloadValue) ∈
      [RegWrite.KR SWDT_IWDG.accessKey, RegWrite.PR 6,
       RegWrite.KR SWDT_IWDG.accessKey,
       RegWrite.RLR (SML.limit 166 1 SWDT_IWDG.maxReloadValue)] ∧
    1 ≤ SML.limit 166 1 SWDT_IWDG.maxReloadValue ∧
    SML.limit 166 1 SWDT_IWDG.maxReloadValue ≤ 4095 ∧
    (4095 < 166 → SML.limit 166 1 SWDT_IWDG.maxReloadValue = 4095) ∧
    (166 = 0 → SML.limit 166 1 SWDT_IWDG.maxReloadValue = 1) :=
  c2_reload_clamped 40000 1000 166
    [RegWrite.KR SWDT_IWDG.accessKey, RegWrite.PR 6,
     RegWrite.KR SWDT_IWDG.accessKey,
     RegWrite.RLR (SML.limit 166 1 SWDT_IWDG.maxReloadValue)]
    (by decide) (by decide)

/-- Claim C3: the setTimeout arithmetic is free of division by zero exactly
when 256 is at most the input frequency and freq / 256 is at most 1000; the
default frequency 40000 satisfies this, while 255 (any value below 256) and
256256 (any value at or above 256256) do not. -/
theorem c3_totality_precondition :
    (∀ freq timeout : Nat,
      (SWDT_IWDG.setTimeoutReload freq timeout).isSome = true ↔
        (256 ≤ freq ∧ freq / 256 ≤ 1000)) ∧
    (256 ≤ 40000 ∧ 40000 / 256 ≤ 1000) ∧
    SWDT_IWDG.setTimeoutReload 255 1000 = none ∧
    SWDT_IWDG.setTimeoutReload 256256 1000 = none := by
  refine ⟨?_, by decide, by decide, by decide⟩
  intro freq timeout
  constructor
  · intro h
    by_cases h1 : freq / 256 = 0
    · simp [SWDT_IWDG.setTimeoutReload, h1] at h
    · by_cases h2 : 1000 / (freq / 256) = 0
      · simp [SWDT_IWDG.setTimeoutReload, h1, h2] at h
      · constructor
        · by_contra hc
          push_neg at hc
          exact h1 (Nat.div_eq_of_lt hc)
        · by_contra hc
          push_neg at hc
          exact h2 (Nat.div_eq_of_lt hc)
  · rintro ⟨h1, h2⟩
    have e0 : 0 < freq / 256 := Nat.div_pos h1 (by decide)
    have e1 : 0 < 1000 / (freq / 256) := Nat.div_pos h2 e0
    simp [SWDT_IWDG.setTimeoutReload, Nat.pos_iff_ne_zero.mp e0,
      Nat.pos_iff_ne_zero.mp e1]

/-- Witness for claim C3 at the default frequency 40000: the computation is
defined. -/
theorem c3_witness : (SWDT_IWDG.setTimeoutReload 40000 1000).isSome = true :=
  (c3_totality_precondition.1 40000 1000).mpr (by decide)

/-- Claim C4: every defined setTimeout call performs its register writes in
the program order unlock key, prescaler, unlock key again, reload; in
particular the prescaler write is preceded by an unlock key write. -/
theorem c4_write_order (freq timeout : Nat) (tr : List RegWrite)
    (h : SWDT_IWDG.setTimeoutTrace freq timeout = some tr) :
    ∃ v, tr = [RegWrite.KR SWDT_IWDG.accessKey,
               RegWrite.PR
                 (SWDT_IWDG.Prescaler_t.toNat SWDT_IWDG.Prescaler_t.Div256),
               RegWrite.KR SWDT_IWDG.accessKey, RegWrite.RLR v] := by
  obtain ⟨r, hr, htr⟩ := setTimeoutTrace_shape freq timeout tr h
  exact ⟨SML.limit r 1 SWDT_IWDG.maxReloadValue, htr⟩

/-- Witness for claim C4 at freq 40000 and timeout 1000: the trace is the
four writes in the claimed order. -/
theorem c4_witness :
    ∃ v, ([RegWrite.KR SWDT_IWDG.accessKey, RegWrite.PR 6,
           RegWrite.KR SWDT_IWDG.accessKey, RegWrite.RLR 166] :
             List RegWrite) =
      [RegWrite.KR SWDT_IWDG.accessKey,
       RegWrite.PR (SWDT_IWDG.Prescaler_t.toNat SWDT_IWDG.Prescaler_t.Div256),
       RegWrite.KR SWDT_IWDG.accessKey, RegWrite.RLR v] :=
  c4_write_order 40000 1000 _ (by decide)

/-- Claim C5: for every input frequency and timeout on which setTimeout is
defined, the prescaler register writes of the trace are exactly one write of
the encoding of Div256, which is 0b110 = 6; the written value does not depend
on the timeout or the frequency. -/
theorem c5_prescaler_always_div256 (freq timeout : Nat) (tr : List RegWrite)
    (h : SWDT_IWDG.setTimeoutTrace freq timeout = some tr) :
    prWrites tr =
      [SWDT_IWDG.Prescaler_t.toNat SWDT_IWDG.Prescaler_t.Div256] ∧
    SWDT_IWDG.Prescaler_t.toNat SWDT_IWDG.Prescaler_t.Div256 = 6 := by
  obtain ⟨r, hr, htr⟩ := setTimeoutTrace_shape freq timeout tr h
  subst htr
  exact ⟨rfl, rfl⟩

/-- Witness for claim C5 at freq 40000 and timeout 1000. -/
theorem c5_witness :
    prWrites [RegWrite.KR SWDT_IWDG.accessKey, RegWrite.PR 6,
              RegWrite.KR SWDT_IWDG.accessKey, RegWrite.RLR 166] =
      [SWDT_IWDG.Prescaler_t.toNat SWDT_IWDG.Prescaler_t.Div256] ∧
    SWDT_IWDG.Prescaler_t.toNat SWDT_IWDG.Prescaler_t.Div256 = 6 :=
  c5_prescaler_always_div256 40000 1000 _ (by decide)

/-- Helper: operations other than setInputFreq never change the stored
frequency. -/
theorem runOps_freq_preserved (s : SWDTState) (ops : List Op)
    (h : ops.all notSetInputFreq = true) : (runOps s ops).freq = s.freq := by
  induction ops generalizing s with
  | nil => rfl
  | cons op rest ih =>
      rw [List.all_cons, Bool.and_eq_true] at h
      cases op with
      | start => exact ih s h.2
      | feed => exact ih s h.2
      | setTimeout t => exact ih s h.2
      | setInputFreq v => simp [notSetInputFreq] at h

/-- Claim C6: after construction (init sets freq to 40000) and any sequence
of public operations that does not contain setInputFreq, the stored input
frequency is exactly 40000, so any subsequent setTimeout computes its trace
at frequency 40000. -/
theorem c6_default_freq (ops : List Op) (t : Nat)
    (h : ops.all notSetInputFreq = true) :
    (runOps (SWDT_IWDG.init { freq := 1 }) ops).freq = 40000 ∧
    SWDT_IWDG.setTimeoutTrace
        (runOps (SWDT_IWDG.init { freq := 1 }) ops).freq t =
      SWDT_IWDG.setTimeoutTrace 40000 t := by
  have hf : (runOps (SWDT_IWDG.init { freq := 1 }) ops).freq = 40000 := by
    rw [runOps_freq_preserved _ ops h]
    rfl
  exact ⟨hf, by rw [hf]⟩

/-- Witness for claim C6 with the operation sequence start, feed,
setTimeout 500 and a subsequent setTimeout 1000. -/
theorem c6_witness :
    (runOps (SWDT_IWDG.init { freq := 1 })
        [Op.start, Op.feed, Op.setTimeout 500]).freq = 40000 ∧
    SWDT_IWDG.setTimeoutTrace
        (runOps (SWDT_IWDG.init { freq := 1 })
          [Op.start, Op.feed, Op.setTimeout 500]).freq 1000 =
      SWDT_IWDG.setTimeoutTrace 40000 1000 :=
  c6_default_freq [Op.start, Op.feed, Op.setTimeout 500] 1000 (by decide)

/-- Claim C7: start writes the fixed start key 0xCCCC to the key register and
changes no driver state, so a second consecutive start is identical to the
first; and no operation of the driver writes any key other than the access,
reload and start keys, so none attempts to stop or un-arm the watchdog. -/
theorem c7_start_idempotent :
    (∀ s, SWDT_IWDG.start s = (s, [RegWrite.KR SWDT_IWDG.startKey])) ∧
    SWDT_IWDG.startKey = 0xCCCC ∧
    (∀ s, SWDT_IWDG.start (SWDT_IWDG.start s).1 = SWDT_IWDG.start s) ∧
    (∀ s op, ((applyOp s op).2.getD []).all allowedKey = true) := by
  refine ⟨fun s => rfl, rfl, fun s => rfl, ?_⟩
  intro s op
  cases op with
  | start => rfl
  | feed => rfl
  | setInputFreq v => rfl
  | setTimeout t =>
      cases hr : SWDT_IWDG.setTimeoutReload s.freq t with
      | none =>
          simp [applyOp, SWDT_IWDG.setTimeout, SWDT_IWDG.setTimeoutTrace, hr]
      | some r =>
          simp [applyOp, SWDT_IWDG.setTimeout, SWDT_IWDG.setTimeoutTrace, hr,
            SWDT_IWDG.setPrescaler, SWDT_IWDG.setReloadValue,
            SWDT_IWDG.enableAccess, allowedKey]

/-- Claim C8: feed has no precondition and no state it inspects: for every
driver state, whether or not start was ever called, feed writes the fixed
reload key 0xAAAA to the key register and returns the state unchanged,
including the stored input frequency. -/
theorem c8_feed_unconditional (s : SWDTState) :
    SWDT_IWDG.feed s = (s, [RegWrite.KR SWDT_IWDG.reloadKey]) ∧
    SWDT_IWDG.reloadKey = 0xAAAA ∧
    (SWDT_IWDG.feed s).1 = s :=
  ⟨rfl, rfl, rfl⟩

/-- Claim C9: every WWDG operation (init, start, feed, setTimeout) performs
no action: each returns the driver state unchanged and an empty trace of
register writes, for every state and every timeout input. -/
theorem c9_wwdg_noop (s : SWDTState) (timeout : Nat) :
    SWDT_WWDG.init s = (s, []) ∧
    SWDT_WWDG.start s = (s, []) ∧
    SWDT_WWDG.feed s = (s, []) ∧
    SWDT_WWDG.setTimeout s timeout = (s, []) :=
  ⟨rfl, rfl, rfl, rfl⟩

/-- Claim C10: constructing an IWDG driver with timeout immediately
configures the hardware: the resulting state has freq 40000 (set by init),
the constructor performs exactly the unlock, prescaler, unlock, reload
writes of setTimeout at frequency 40000, and the start key is never written
during construction. -/
theorem c10_ctor_configures (timeout : Nat) :
    (SWDT_IWDG.mkIWDG timeout).1 = { freq := 40000 } ∧
    (SWDT_IWDG.mkIWDG timeout).2 =
      some [RegWrite.KR SWDT_IWDG.accessKey, RegWrite.PR 6,
            RegWrite.KR SWDT_IWDG.accessKey,
            RegWrite.RLR (SML.limit (timeout / 6) 1
              SWDT_IWDG.maxReloadValue)] ∧
    RegWrite.KR SWDT_IWDG.startKey ∉
      [RegWrite.KR SWDT_IWDG.accessKey, RegWrite.PR 6,
       RegWrite.KR SWDT_IWDG.accessKey,
       RegWrite.RLR (SML.limit (timeout / 6) 1 SWDT_IWDG.maxReloadValue)] := by
  refine ⟨rfl, rfl, ?_⟩
  simp [SWDT_IWDG.startKey, SWDT_IWDG.accessKey]

end SWDT
